import Mathlib

/-!
Formal model of the push-to-talk settings and capture UI of this
repository (src/app/src/App.tsx and its richer variant in
src/unnamed/part_002), of the two API-key panels, and of the service
worker fetch handler (src/unnamed/part_001).

TypeScript records are embedded as Lean structures; the JS object
spread merge `{ ...base, ...p }` over a Partial record becomes a
per-field Option.getD; the asynchronous backend boundary (Tauri
invoke commands) is embedded as explicit function parameters plus a
trace of the backend calls each flow emits, and backend failure
outcomes become explicit Bool/Option parameters.
-/

/-- SecurityMasterMode union type, src/app/src/App.tsx line 6. -/
inductive SecurityMasterMode where
  | standard
  | strict
  | flexible
  deriving DecidableEq

/-- MaskStrength union type, src/app/src/App.tsx line 7. -/
inductive MaskStrength where
  | strict
  | standard
  | relaxed
  deriving DecidableEq

/-- RegionPreference union type, src/app/src/App.tsx line 8. -/
inductive RegionPreference where
  | jp
  | nearest
  deriving DecidableEq

/-- DlpAction union type, src/app/src/App.tsx line 9. -/
inductive DlpAction where
  | mask
  | warn
  | block
  deriving DecidableEq

/-- Custom replace rule element type, src/app/src/App.tsx line 44. -/
structure ReplaceRule where
  pattern : String
  replace : String
  flags : Option String
  deriving DecidableEq

/-- The AppSettings interface, src/app/src/App.tsx lines 11 to 45
(identical in src/unnamed/part_002).  The TS literal types `true` and
`90` are embedded as Bool and Nat values. -/
structure AppSettings where
  settingsVersion : Nat
  securityMasterMode : SecurityMasterMode
  enableGemini : Bool
  noSave : Bool
  encryptTempFiles : Bool
  autoClearClipboard : Bool
  clearAllOnExit : Bool
  maskStrength : MaskStrength
  maskPhone : Bool
  maskEmail : Bool
  maskAddress : Bool
  maskNumbers : Bool
  maskNames : Bool
  whitelistWords : List String
  sendTextOnlyToGemini : Bool
  disableDataTraining : Bool
  regionPreference : RegionPreference
  useBYOKey : Bool
  saveEmailDisplayName : Bool
  shortLivedSession : Bool
  clearTokensOnLogout : Bool
  enableErrorLogs : Bool
  enableUsageStats : Bool
  autoDeleteLogsAfterDays : Nat
  enableDLPScan : Bool
  dlpAction : DlpAction
  offlineMode : Bool
  naturalizeExpressions : Bool
  autoPunctuation : Bool
  unifyForeignWords : Bool
  preserveOriginalProperNouns : Bool
  noSummaryOrEmbellishment : Bool
  customReplaceRules : List ReplaceRule
  deriving DecidableEq

/-- The compiled-in DEFAULTS record, src/app/src/App.tsx lines 47 to 81
(identical in src/unnamed/part_002 lines 47 to 81). -/
def DEFAULTS : AppSettings where
  settingsVersion := 1
  securityMasterMode := SecurityMasterMode.standard
  enableGemini := true
  noSave := true
  encryptTempFiles := true
  autoClearClipboard := true
  clearAllOnExit := true
  maskStrength := MaskStrength.standard
  maskPhone := true
  maskEmail := true
  maskAddress := true
  maskNumbers := true
  maskNames := false
  whitelistWords := []
  sendTextOnlyToGemini := true
  disableDataTraining := true
  regionPreference := RegionPreference.nearest
  useBYOKey := true
  saveEmailDisplayName := false
  shortLivedSession := true
  clearTokensOnLogout := true
  enableErrorLogs := false
  enableUsageStats := false
  autoDeleteLogsAfterDays := 90
  enableDLPScan := true
  dlpAction := DlpAction.mask
  offlineMode := false
  naturalizeExpressions := true
  autoPunctuation := true
  unifyForeignWords := true
  preserveOriginalProperNouns := true
  noSummaryOrEmbellishment := true
  customReplaceRules := []

/-- A Partial AppSettings record (TS `Partial` of the interface): every
key optional.  A `none` field is a key absent from the JS object, so a
spread of the record does not touch that key. -/
structure SettingsPatch where
  settingsVersion : Option Nat := none
  securityMasterMode : Option SecurityMasterMode := none
  enableGemini : Option Bool := none
  noSave : Option Bool := none
  encryptTempFiles : Option Bool := none
  autoClearClipboard : Option Bool := none
  clearAllOnExit : Option Bool := none
  maskStrength : Option MaskStrength := none
  maskPhone : Option Bool := none
  maskEmail : Option Bool := none
  maskAddress : Option Bool := none
  maskNumbers : Option Bool := none
  maskNames : Option Bool := none
  whitelistWords : Option (List String) := none
  sendTextOnlyToGemini : Option Bool := none
  disableDataTraining : Option Bool := none
  regionPreference : Option RegionPreference := none
  useBYOKey : Option Bool := none
  saveEmailDisplayName : Option Bool := none
  shortLivedSession : Option Bool := none
  clearTokensOnLogout : Option Bool := none
  enableErrorLogs : Option Bool := none
  enableUsageStats : Option Bool := none
  autoDeleteLogsAfterDays : Option Nat := none
  enableDLPScan : Option Bool := none
  dlpAction : Option DlpAction := none
  offlineMode : Option Bool := none
  naturalizeExpressions : Option Bool := none
  autoPunctuation : Option Bool := none
  unifyForeignWords : Option Bool := none
  preserveOriginalProperNouns : Option Bool := none
  noSummaryOrEmbellishment : Option Bool := none
  customReplaceRules : Option (List ReplaceRule) := none
  deriving DecidableEq

/-- The empty JS object, the smallest possible backend reply or patch. -/
def emptyPatch : SettingsPatch := {}

/-- JS object spread `{ ...base, ...p }` of a Partial record over a full
record: for every key present in p the p value wins, for every key
absent in p the base value is kept.  Used at src/app/src/App.tsx
line 115 (over DEFAULTS) and line 129 (over the current record). -/
def mergeSettings (base : AppSettings) (p : SettingsPatch) : AppSettings where
  settingsVersion := p.settingsVersion.getD base.settingsVersion
  securityMasterMode := p.securityMasterMode.getD base.securityMasterMode
  enableGemini := p.enableGemini.getD base.enableGemini
  noSave := p.noSave.getD base.noSave
  encryptTempFiles := p.encryptTempFiles.getD base.encryptTempFiles
  autoClearClipboard := p.autoClearClipboard.getD base.autoClearClipboard
  clearAllOnExit := p.clearAllOnExit.getD base.clearAllOnExit
  maskStrength := p.maskStrength.getD base.maskStrength
  maskPhone := p.maskPhone.getD base.maskPhone
  maskEmail := p.maskEmail.getD base.maskEmail
  maskAddress := p.maskAddress.getD base.maskAddress
  maskNumbers := p.maskNumbers.getD base.maskNumbers
  maskNames := p.maskNames.getD base.maskNames
  whitelistWords := p.whitelistWords.getD base.whitelistWords
  sendTextOnlyToGemini := p.sendTextOnlyToGemini.getD base.sendTextOnlyToGemini
  disableDataTraining := p.disableDataTraining.getD base.disableDataTraining
  regionPreference := p.regionPreference.getD base.regionPreference
  useBYOKey := p.useBYOKey.getD base.useBYOKey
  saveEmailDisplayName := p.saveEmailDisplayName.getD base.saveEmailDisplayName
  shortLivedSession := p.shortLivedSession.getD base.shortLivedSession
  clearTokensOnLogout := p.clearTokensOnLogout.getD base.clearTokensOnLogout
  enableErrorLogs := p.enableErrorLogs.getD base.enableErrorLogs
  enableUsageStats := p.enableUsageStats.getD base.enableUsageStats
  autoDeleteLogsAfterDays := p.autoDeleteLogsAfterDays.getD base.autoDeleteLogsAfterDays
  enableDLPScan := p.enableDLPScan.getD base.enableDLPScan
  dlpAction := p.dlpAction.getD base.dlpAction
  offlineMode := p.offlineMode.getD base.offlineMode
  naturalizeExpressions := p.naturalizeExpressions.getD base.naturalizeExpressions
  autoPunctuation := p.autoPunctuation.getD base.autoPunctuation
  unifyForeignWords := p.unifyForeignWords.getD base.unifyForeignWords
  preserveOriginalProperNouns := p.preserveOriginalProperNouns.getD base.preserveOriginalProperNouns
  noSummaryOrEmbellishment := p.noSummaryOrEmbellishment.getD base.noSummaryOrEmbellishment
  customReplaceRules := p.customReplaceRules.getD base.customReplaceRules

/-- The settings-load effect, src/app/src/App.tsx lines 112 to 118
(identical in src/unnamed/part_002 lines 122 to 128): on a backend
reply s the store becomes the shallow merge of s over DEFAULTS and
loading is set to false; on a rejected fetch (argument none) the catch
branch only sets loading to false, so the store keeps its initial
useState value DEFAULTS.  The returned Bool is the ready flag, the
negation of the loading flag. -/
def loadSettings : Option SettingsPatch → AppSettings × Bool
  | some s => (mergeSettings DEFAULTS s, true)
  | none => (DEFAULTS, true)

/-- The update function, src/app/src/App.tsx lines 128 to 132
(identical in src/unnamed/part_002 lines 138 to 142): the next record
is the spread merge of the patch over the current record and is set
synchronously; the settings_update backend call result is discarded and
its rejection is swallowed by an empty catch, so the outcome parameter
persistOk is never consulted. -/
def updateSettings (settings : AppSettings) (p : SettingsPatch) (_persistOk : Bool) :
    AppSettings :=
  mergeSettings settings p

/-- Claim C2: for every record s returned by the backend settings fetch
(including the empty record and any partial record), load yields a
settings record that contains every key of the compiled-in defaults,
where for each key present in s the backend value is used and for each
key absent in s the default value is used; if the backend fetch fails,
the record equals the defaults unchanged and the store is still marked
ready. -/
theorem c2_load_merges_defaults (s : SettingsPatch) :
    (loadSettings (some s)).2 = true
    ∧ (loadSettings (some s)).1.settingsVersion = s.settingsVersion.getD DEFAULTS.settingsVersion
    ∧ (loadSettings (some s)).1.securityMasterMode = s.securityMasterMode.getD DEFAULTS.securityMasterMode
    ∧ (loadSettings (some s)).1.enableGemini = s.enableGemini.getD DEFAULTS.enableGemini
    ∧ (loadSettings (some s)).1.noSave = s.noSave.getD DEFAULTS.noSave
    ∧ (loadSettings (some s)).1.encryptTempFiles = s.encryptTempFiles.getD DEFAULTS.encryptTempFiles
    ∧ (loadSettings (some s)).1.autoClearClipboard = s.autoClearClipboard.getD DEFAULTS.autoClearClipboard
    ∧ (loadSettings (some s)).1.clearAllOnExit = s.clearAllOnExit.getD DEFAULTS.clearAllOnExit
    ∧ (loadSettings (some s)).1.maskStrength = s.maskStrength.getD DEFAULTS.maskStrength
    ∧ (loadSettings (some s)).1.maskPhone = s.maskPhone.getD DEFAULTS.maskPhone
    ∧ (loadSettings (some s)).1.maskEmail = s.maskEmail.getD DEFAULTS.maskEmail
    ∧ (loadSettings (some s)).1.maskAddress = s.maskAddress.getD DEFAULTS.maskAddress
    ∧ (loadSettings (some s)).1.maskNumbers = s.maskNumbers.getD DEFAULTS.maskNumbers
    ∧ (loadSettings (some s)).1.maskNames = s.maskNames.getD DEFAULTS.maskNames
    ∧ (loadSettings (some s)).1.whitelistWords = s.whitelistWords.getD DEFAULTS.whitelistWords
    ∧ (loadSettings (some s)).1.sendTextOnlyToGemini = s.sendTextOnlyToGemini.getD DEFAULTS.sendTextOnlyToGemini
    ∧ (loadSettings (some s)).1.disableDataTraining = s.disableDataTraining.getD DEFAULTS.disableDataTraining
    ∧ (loadSettings (some s)).1.regionPreference = s.regionPreference.getD DEFAULTS.regionPreference
    ∧ (loadSettings (some s)).1.useBYOKey = s.useBYOKey.getD DEFAULTS.useBYOKey
    ∧ (loadSettings (some s)).1.saveEmailDisplayName = s.saveEmailDisplayName.getD DEFAULTS.saveEmailDisplayName
    ∧ (loadSettings (some s)).1.shortLivedSession = s.shortLivedSession.getD DEFAULTS.shortLivedSession
    ∧ (loadSettings (some s)).1.clearTokensOnLogout = s.clearTokensOnLogout.getD DEFAULTS.clearTokensOnLogout
    ∧ (loadSettings (some s)).1.enableErrorLogs = s.enableErrorLogs.getD DEFAULTS.enableErrorLogs
    ∧ (loadSettings (some s)).1.enableUsageStats = s.enableUsageStats.getD DEFAULTS.enableUsageStats
    ∧ (loadSettings (some s)).1.autoDeleteLogsAfterDays = s.autoDeleteLogsAfterDays.getD DEFAULTS.autoDeleteLogsAfterDays
    ∧ (loadSettings (some s)).1.enableDLPScan = s.enableDLPScan.getD DEFAULTS.enableDLPScan
    ∧ (loadSettings (some s)).1.dlpAction = s.dlpAction.getD DEFAULTS.dlpAction
    ∧ (loadSettings (some s)).1.offlineMode = s.offlineMode.getD DEFAULTS.offlineMode
    ∧ (loadSettings (some s)).1.naturalizeExpressions = s.naturalizeExpressions.getD DEFAULTS.naturalizeExpressions
    ∧ (loadSettings (some s)).1.autoPunctuation = s.autoPunctuation.getD DEFAULTS.autoPunctuation
    ∧ (loadSettings (some s)).1.unifyForeignWords = s.unifyForeignWords.getD DEFAULTS.unifyForeignWords
    ∧ (loadSettings (some s)).1.preserveOriginalProperNouns = s.preserveOriginalProperNouns.getD DEFAULTS.preserveOriginalProperNouns
    ∧ (loadSettings (some s)).1.noSummaryOrEmbellishment = s.noSummaryOrEmbellishment.getD DEFAULTS.noSummaryOrEmbellishment
    ∧ (loadSettings (some s)).1.customReplaceRules = s.customReplaceRules.getD DEFAULTS.customReplaceRules
    ∧ loadSettings none = (DEFAULTS, true)
    ∧ mergeSettings DEFAULTS emptyPatch = DEFAULTS := by
  repeat' apply And.intro
  all_goals rfl

/-- Claim C4: for every Partial record p, update changes the in-memory
settings record to the merge of the old record with p immediately, keys
of p taking precedence and all other keys unchanged; a failure of the
subsequent backend persist call does not roll back the local merge (the
in-memory record is the same whether the persist succeeds or fails). -/
theorem c4_update_immediate_no_rollback (settings : AppSettings) (p : SettingsPatch)
    (persistOk : Bool) :
    updateSettings settings p true = updateSettings settings p false
    ∧ (updateSettings settings p persistOk).settingsVersion = p.settingsVersion.getD settings.settingsVersion
    ∧ (updateSettings settings p persistOk).securityMasterMode = p.securityMasterMode.getD settings.securityMasterMode
    ∧ (updateSettings settings p persistOk).enableGemini = p.enableGemini.getD settings.enableGemini
    ∧ (updateSettings settings p persistOk).noSave = p.noSave.getD settings.noSave
    ∧ (updateSettings settings p persistOk).encryptTempFiles = p.encryptTempFiles.getD settings.encryptTempFiles
    ∧ (updateSettings settings p persistOk).autoClearClipboard = p.autoClearClipboard.getD settings.autoClearClipboard
    ∧ (updateSettings settings p persistOk).clearAllOnExit = p.clearAllOnExit.getD settings.clearAllOnExit
    ∧ (updateSettings settings p persistOk).maskStrength = p.maskStrength.getD settings.maskStrength
    ∧ (updateSettings settings p persistOk).maskPhone = p.maskPhone.getD settings.maskPhone
    ∧ (updateSettings settings p persistOk).maskEmail = p.maskEmail.getD settings.maskEmail
    ∧ (updateSettings settings p persistOk).maskAddress = p.maskAddress.getD settings.maskAddress
    ∧ (updateSettings settings p persistOk).maskNumbers = p.maskNumbers.getD settings.maskNumbers
    ∧ (updateSettings settings p persistOk).maskNames = p.maskNames.getD settings.maskNames
    ∧ (updateSettings settings p persistOk).whitelistWords = p.whitelistWords.getD settings.whitelistWords
    ∧ (updateSettings settings p persistOk).sendTextOnlyToGemini = p.sendTextOnlyToGemini.getD settings.sendTextOnlyToGemini
    ∧ (updateSettings settings p persistOk).disableDataTraining = p.disableDataTraining.getD settings.disableDataTraining
    ∧ (updateSettings settings p persistOk).regionPreference = p.regionPreference.getD settings.regionPreference
    ∧ (updateSettings settings p persistOk).useBYOKey = p.useBYOKey.getD settings.useBYOKey
    ∧ (updateSettings settings p persistOk).saveEmailDisplayName = p.saveEmailDisplayName.getD settings.saveEmailDisplayName
    ∧ (updateSettings settings p persistOk).shortLivedSession = p.shortLivedSession.getD settings.shortLivedSession
    ∧ (updateSettings settings p persistOk).clearTokensOnLogout = p.clearTokensOnLogout.getD settings.clearTokensOnLogout
    ∧ (updateSettings settings p persistOk).enableErrorLogs = p.enableErrorLogs.getD settings.enableErrorLogs
    ∧ (updateSettings settings p persistOk).enableUsageStats = p.enableUsageStats.getD settings.enableUsageStats
    ∧ (updateSettings settings p persistOk).autoDeleteLogsAfterDays = p.autoDeleteLogsAfterDays.getD settings.autoDeleteLogsAfterDays
    ∧ (updateSettings settings p persistOk).enableDLPScan = p.enableDLPScan.getD settings.enableDLPScan
    ∧ (updateSettings settings p persistOk).dlpAction = p.dlpAction.getD settings.dlpAction
    ∧ (updateSettings settings p persistOk).offlineMode = p.offlineMode.getD settings.offlineMode
    ∧ (updateSettings settings p persistOk).naturalizeExpressions = p.naturalizeExpressions.getD settings.naturalizeExpressions
    ∧ (updateSettings settings p persistOk).autoPunctuation = p.autoPunctuation.getD settings.autoPunctuation
    ∧ (updateSettings settings p persistOk).unifyForeignWords = p.unifyForeignWords.getD settings.unifyForeignWords
    ∧ (updateSettings settings p persistOk).preserveOriginalProperNouns = p.preserveOriginalProperNouns.getD settings.preserveOriginalProperNouns
    ∧ (updateSettings settings p persistOk).noSummaryOrEmbellishment = p.noSummaryOrEmbellishment.getD settings.noSummaryOrEmbellishment
    ∧ (updateSettings settings p persistOk).customReplaceRules = p.customReplaceRules.getD settings.customReplaceRules := by
  repeat' apply And.intro
  all_goals rfl

/-- The pttState union type, src/app/src/App.tsx line 107
(src/unnamed/part_002 line 115). -/
inductive PttState where
  | idle
  | recording
  | processing
  | error
  deriving DecidableEq

/-- The controller state owned by the App component: the pttState
useState value, the two refs mediaStreamRef and mediaRecorderRef
(stream and recorder handles modelled as numeric ids), the
audioChunksRef buffer (chunk payloads modelled as opaque strings), and
the interim and final transcript texts of src/unnamed/part_002
lines 119 to 120 (absent from src/app/src/App.tsx, where they are
constantly empty). -/
structure CtrlState where
  pttState : PttState
  mediaStream : Option Nat
  mediaRecorder : Option Nat
  audioChunks : List String
  interimText : String
  finalText : String
  deriving DecidableEq

/-- Side effects of the start path, in program order. -/
inductive StartAction where
  | getUserMedia
  | newMediaRecorder
  | recorderStart
  deriving DecidableEq

/-- The startRecording function, src/unnamed/part_002 lines 144 to 174
(the guard and acquisition logic coincide with src/app/src/App.tsx
lines 134 to 160, which only lacks the transcript clearing).  The
source guard is `if (pttState !== idle) return`; here the two branches
are swapped.  The acquired parameter is the getUserMedia outcome: none
means the promise rejected, in which case the async function stops at
the await with an unhandled rejection, after having already cleared the
transcripts and set pttState to recording; no catch handler and no
further statement runs.  On success the stream and recorder refs are
set, the chunk buffer is reset and the recorder is started.  The
cosmetic interim ticker (setInterval appending dots) is omitted: it
only rewrites interimText between start and stop, and onstop resets
interimText.  The returned list records the performed side effects. -/
def startRecording (st : CtrlState) (acquired : Option Nat) :
    CtrlState × List StartAction :=
  if st.pttState = PttState.idle then
    let st1 : CtrlState :=
      { st with finalText := "", interimText := "", pttState := PttState.recording }
    match acquired with
    | none => (st1, [StartAction.getUserMedia])
    | some s =>
        ({ st1 with mediaStream := some s, mediaRecorder := some s, audioChunks := [] },
         [StartAction.getUserMedia, StartAction.newMediaRecorder,
          StartAction.recorderStart])
  else (st, [])

/-- The mr.ondataavailable handler, src/unnamed/part_002 line 158
(src/app/src/App.tsx lines 142 to 144): a chunk is appended to the
buffer only when its size is positive. -/
def ondataavailable (st : CtrlState) (data : String) : CtrlState :=
  if 0 < data.length then { st with audioChunks := st.audioChunks ++ [data] } else st

/-- The blobToBase64 helper, src/app/src/App.tsx lines 310 to 317:
modelled as the identity on the blob byte content, since the capture
flow treats the base64 string as an opaque payload that is only handed
to the backend transcription call. -/
def blobToBase64 (blob : String) : String := blob

/-- One backend invoke performed by the processing chain, with its
argument of interest. -/
inductive Call where
  | sttTranscribeOnce (audioB64 : String)
  | nlpGeminiFormat (text : String)
  | clipboardSet (text : String)
  | inputPaste
  | clipboardClear
  deriving DecidableEq

/-- Result of one completed capture cycle: the final component state
plus the ordered list of backend calls the processing chain emitted. -/
structure CycleResult where
  pttState : PttState
  interimText : String
  finalText : String
  calls : List Call
  deriving DecidableEq

/-- The mr.onstop handler, src/unnamed/part_002 lines 159 to 172
(src/app/src/App.tsx lines 145 to 158 is identical except for the
transcript setters): the accumulated chunks are assembled into one blob
and base64-encoded; stt_transcribe_once is called on the payload;
interimText is reset and finalText becomes the transcript;
nlp_gemini_format is called on the transcript unconditionally; its
result is written with clipboard_set, then input_paste runs; if
settings.autoClearClipboard then clipboard_clear runs with its
rejection swallowed by catch, so the clearSucceeds outcome parameter is
never consulted; finally pttState returns to idle.  The backend
transcription and formatting commands are the function parameters stt
and format. -/
def onstop (settings : AppSettings) (chunks : List String)
    (stt : AppSettings → String → String)
    (format : AppSettings → String → String)
    (_clearSucceeds : Bool) : CycleResult :=
  let b64 := blobToBase64 (String.join chunks)
  let sttText := stt settings b64
  let formatted := format settings sttText
  { pttState := PttState.idle
    interimText := ""
    finalText := sttText
    calls :=
      [Call.sttTranscribeOnce b64, Call.nlpGeminiFormat sttText,
       Call.clipboardSet formatted, Call.inputPaste]
        ++ (if settings.autoClearClipboard then [Call.clipboardClear] else []) }

/-- The initial component state: pttState starts at idle, both refs at
null, the chunk buffer empty, both transcripts empty. -/
def initialCtrlState : CtrlState :=
  { pttState := PttState.idle, mediaStream := none, mediaRecorder := none,
    audioChunks := [], interimText := "", finalText := "" }

/-- One full capture cycle from the initial state: start with a
successfully acquired stream, deliver the data events to
ondataavailable, then stop, which fires onstop on the accumulated
buffer. -/
def captureCycle (settings : AppSettings) (stream : Nat) (dataEvents : List String)
    (stt format : AppSettings → String → String) (clearOk : Bool) : CycleResult :=
  let st1 := (startRecording initialCtrlState (some stream)).1
  let st2 := dataEvents.foldl ondataavailable st1
  onstop settings st2.audioChunks stt format clearOk

theorem audioChunks_foldl (events : List String) (st : CtrlState) :
    (events.foldl ondataavailable st).audioChunks
      = st.audioChunks ++ events.filter (fun d => decide (0 < d.length)) := by
  induction events generalizing st with
  | nil => simp
  | cons e es ih =>
      by_cases h : 0 < e.length
      · simp [List.foldl_cons, ondataavailable, h, ih, List.filter_cons]
      · simp [List.foldl_cons, ondataavailable, h, ih, List.filter_cons]

/-- Claim C1 as amended: in every capture cycle the transcription call
receives the concatenation of the non-empty chunks exactly once, the
formatting call nlp_gemini_format is invoked exactly once on the
transcript regardless of the enableGemini setting, and clipboard_set
receives the value returned by nlp_gemini_format, never the raw
transcript directly. -/
theorem c1_formatting_always_invoked (settings : AppSettings) (stream : Nat)
    (dataEvents : List String) (stt format : AppSettings → String → String)
    (clearOk : Bool) :
    (captureCycle settings stream dataEvents stt format clearOk).calls
      = (let payload := blobToBase64
            (String.join (dataEvents.filter (fun d => decide (0 < d.length))))
         let transcript := stt settings payload
         [Call.sttTranscribeOnce payload, Call.nlpGeminiFormat transcript,
          Call.clipboardSet (format settings transcript), Call.inputPaste]
           ++ (if settings.autoClearClipboard then [Call.clipboardClear] else [])) := by
  show (onstop settings
      ((dataEvents.foldl ondataavailable
        (startRecording initialCtrlState (some stream)).1).audioChunks)
      stt format clearOk).calls = _
  rw [audioChunks_foldl]
  rfl

/-- Claim C1, counterexample to the claim as stated: a capture cycle
with enableGemini set to false in which nlp_gemini_format is
nevertheless invoked and clipboard_set receives the formatted text
rather than the literal transcript returned by stt_transcribe_once. -/
theorem c1_counterexample :
    let settings := { DEFAULTS with enableGemini := false }
    let r := captureCycle settings 0 ["a", "b", "c"]
      (fun _ _ => "hello") (fun _ t => String.append "FMT:" t) true
    settings.enableGemini = false
    ∧ Call.nlpGeminiFormat "hello" ∈ r.calls
    ∧ Call.clipboardSet "FMT:hello" ∈ r.calls
    ∧ ¬ Call.clipboardSet "hello" ∈ r.calls := by
  decide

/-- Claim C5: whenever the controller state is recording or processing,
invoking start is a no-op: no new audio stream is acquired, no recorder
is constructed, no transcript is cleared, and the state is unchanged. -/
theorem c5_start_noop_when_busy (st : CtrlState) (acquired : Option Nat)
    (h : st.pttState = PttState.recording ∨ st.pttState = PttState.processing) :
    startRecording st acquired = (st, []) := by
  have hne : ¬ st.pttState = PttState.idle := by
    rcases h with h | h <;> simp [h]
  simp [startRecording, hne]

/-- Witness for C5 at a concrete busy state. -/
theorem c5_witness :
    (⟨PttState.processing, some 1, some 1, ["x"], "int", "fin"⟩ : CtrlState).pttState
        = PttState.processing
    ∧ startRecording ⟨PttState.processing, some 1, some 1, ["x"], "int", "fin"⟩ (some 2)
        = (⟨PttState.processing, some 1, some 1, ["x"], "int", "fin"⟩, []) :=
  ⟨rfl, c5_start_noop_when_busy _ _ (Or.inr rfl)⟩

/-- Claim C6: evaluation at the failing input.  When getUserMedia
rejects during start from idle, the controller has already moved to
recording and the rejection is unhandled: the resulting state is
recording, not error (no assignment to the declared error state exists
anywhere in the component), and exactly one acquisition attempt was
made, so there is no automatic retry. -/
theorem c6_stuck_recording_on_failure :
    (startRecording initialCtrlState none).1.pttState = PttState.recording
    ∧ (startRecording initialCtrlState none).1.pttState ≠ PttState.error
    ∧ (startRecording initialCtrlState none).2 = [StartAction.getUserMedia] := by
  decide

/-- Claim C7: in every capture cycle the clipboard_clear call is
invoked, and is invoked after clipboard_set and input_paste, if and
only if autoClearClipboard is true; a failure of the clear call is
ignored, the result is the same whether the clear succeeds or fails and
the cycle returns to idle. -/
theorem c7_clear_iff_autoclear (settings : AppSettings) (chunks : List String)
    (stt format : AppSettings → String → String) :
    ((Call.clipboardClear ∈ (onstop settings chunks stt format true).calls)
        ↔ settings.autoClearClipboard = true)
    ∧ onstop settings chunks stt format true = onstop settings chunks stt format false
    ∧ (onstop settings chunks stt format true).pttState = PttState.idle
    ∧ (onstop settings chunks stt format true).calls
        = [Call.sttTranscribeOnce (blobToBase64 (String.join chunks)),
           Call.nlpGeminiFormat (stt settings (blobToBase64 (String.join chunks))),
           Call.clipboardSet
             (format settings (stt settings (blobToBase64 (String.join chunks)))),
           Call.inputPaste]
            ++ (if settings.autoClearClipboard then [Call.clipboardClear] else []) := by
  refine ⟨?_, rfl, rfl, rfl⟩
  cases h : settings.autoClearClipboard <;> simp [onstop, h]

/-- The KeysPanel component state of the src/unnamed/part_002 variant,
lines 316 to 320: two presence booleans hasGroq and hasGemini plus the
two transient input buffers. -/
structure KeysState where
  hasGroq : Bool
  hasGemini : Bool
  groq : String
  gemini : String
  deriving DecidableEq

/-- The keys_get backend reply as typed and consumed by the
src/unnamed/part_002 KeysPanel, line 322: only the two presence
booleans, no secret values. -/
structure KeysReply where
  hasGroq : Bool
  hasGemini : Bool
  deriving DecidableEq

/-- The keys_get load effect of the src/unnamed/part_002 KeysPanel,
lines 321 to 326: only the two presence booleans are read from the
reply (the double negation on an already boolean field is the
identity); the input buffers are untouched. -/
def loadKeys (st : KeysState) (k : KeysReply) : KeysState :=
  { st with hasGroq := k.hasGroq, hasGemini := k.hasGemini }

/-- A JS optional value as it appears in a serialized payload:
undef is an absent key (the undefined sentinel, omitted from the JSON
body), null is an explicitly transmitted null, val is a present
string. -/
inductive JsOpt (α : Type) where
  | undef
  | null
  | val (a : α)
  deriving DecidableEq

/-- The keys_set payload shape shared by both KeysPanel variants. -/
structure KeysSetPayload where
  groqApiKey : JsOpt String
  geminiApiKey : JsOpt String
  deriving DecidableEq

/-- The save function of the src/unnamed/part_002 KeysPanel, lines 327
to 334: the payload sends `groq || undefined` per field, so an empty
buffer becomes the undefined leave-unchanged sentinel; then
`setHasGroq(!!groq || hasGroq)` (here rendered as an if on buffer
emptiness) updates each presence boolean optimistically, and both
buffers are cleared. -/
def saveKeys (st : KeysState) : KeysState × KeysSetPayload :=
  ({ hasGroq := if st.groq = "" then st.hasGroq else true,
     hasGemini := if st.gemini = "" then st.hasGemini else true,
     groq := "", gemini := "" },
   { groqApiKey := if st.groq = "" then JsOpt.undef else JsOpt.val st.groq,
     geminiApiKey := if st.gemini = "" then JsOpt.undef else JsOpt.val st.gemini })

/-- The KeysPanel component state of the src/app/src/App.tsx variant,
lines 279 to 281: only the two input buffers, no presence booleans. -/
structure LegacyKeysState where
  groq : String
  gemini : String
  deriving DecidableEq

/-- The keys_get backend reply as typed and consumed by the
src/app/src/App.tsx KeysPanel, line 283: the optional stored secret
values themselves. -/
structure LegacyKeysReply where
  groqApiKey : Option String
  geminiApiKey : Option String
  deriving DecidableEq

/-- JS `x || y` for an optional string with y the empty string: an
absent value, and also an empty string, collapse to the empty
string. -/
def orEmpty : Option String → String
  | some s => s
  | none => ""

/-- The keys_get load effect of the src/app/src/App.tsx KeysPanel,
lines 282 to 287: the stored secret values returned by the backend are
written into the two input buffers of the UI state. -/
def legacyLoadKeys (k : LegacyKeysReply) : LegacyKeysState :=
  { groq := orEmpty k.groqApiKey, gemini := orEmpty k.geminiApiKey }

/-- The save function of the src/app/src/App.tsx KeysPanel, lines 288
to 291: the payload sends `groq || null` per field, so an empty buffer
is transmitted as an explicit null value, and the component state is
left untouched: the input buffers are not cleared. -/
def legacySaveKeys (st : LegacyKeysState) : LegacyKeysState × KeysSetPayload :=
  (st,
   { groqApiKey := if st.groq = "" then JsOpt.null else JsOpt.val st.groq,
     geminiApiKey := if st.gemini = "" then JsOpt.null else JsOpt.val st.gemini })

/-- Claim C3 as amended: in the src/unnamed/part_002 KeysPanel, load
reads only the two presence booleans of the backend reply and leaves
the input buffers untouched, so no backend-supplied string ever enters
the UI state through load. -/
theorem c3_presence_only_load (st : KeysState) (k : KeysReply) :
    loadKeys st k
      = { hasGroq := k.hasGroq, hasGemini := k.hasGemini,
          groq := st.groq, gemini := st.gemini } :=
  rfl

/-- Claim C3, counterexample to the claim as stated: the KeysPanel of
src/app/src/App.tsx fetches the stored secret values from keys_get and
places them in the UI state, so the UI state does hold a stored secret
returned by the backend. -/
theorem c3_counterexample :
    (legacyLoadKeys ⟨some "sk-stored-secret", none⟩).groq = "sk-stored-secret" :=
  rfl

/-- Claim C8 as amended, for the src/unnamed/part_002 KeysPanel: an
empty field leaves its presence boolean unchanged and is sent as the
undefined leave-unchanged sentinel; a non-empty field sets its presence
boolean to true and is sent as its value; both input buffers are
cleared when save completes. -/
theorem c8_single_field_save (st : KeysState) :
    (st.groq = "" →
      (saveKeys st).1.hasGroq = st.hasGroq ∧ (saveKeys st).2.groqApiKey = JsOpt.undef)
    ∧ (st.gemini = "" →
      (saveKeys st).1.hasGemini = st.hasGemini
        ∧ (saveKeys st).2.geminiApiKey = JsOpt.undef)
    ∧ (st.groq ≠ "" →
      (saveKeys st).1.hasGroq = true ∧ (saveKeys st).2.groqApiKey = JsOpt.val st.groq)
    ∧ (st.gemini ≠ "" →
      (saveKeys st).1.hasGemini = true
        ∧ (saveKeys st).2.geminiApiKey = JsOpt.val st.gemini)
    ∧ (saveKeys st).1.groq = "" ∧ (saveKeys st).1.gemini = "" := by
  refine ⟨?_, ?_, ?_, ?_, rfl, rfl⟩ <;> intro h <;> simp [saveKeys, h]

/-- Witness for C8 at a save in which only the groq field is filled. -/
theorem c8_witness :
    ("" : String) = ""
    ∧ ("sk-groq-123" : String) ≠ ""
    ∧ ((saveKeys ⟨false, false, "sk-groq-123", ""⟩).1.hasGemini = false
        ∧ (saveKeys ⟨false, false, "sk-groq-123", ""⟩).2.geminiApiKey = JsOpt.undef)
    ∧ ((saveKeys ⟨false, false, "sk-groq-123", ""⟩).1.hasGroq = true
        ∧ (saveKeys ⟨false, false, "sk-groq-123", ""⟩).2.groqApiKey
            = JsOpt.val "sk-groq-123") :=
  ⟨rfl, by decide,
   (c8_single_field_save ⟨false, false, "sk-groq-123", ""⟩).2.1 rfl,
   (c8_single_field_save ⟨false, false, "sk-groq-123", ""⟩).2.2.1 (by decide)⟩

/-- Claim C8, counterexample to the claim as stated: in the
src/app/src/App.tsx KeysPanel, after a save with only the groq field
filled the input buffer still holds the typed value (the buffers are
not cleared when the save completes), and the empty field is
transmitted as an explicit null value rather than the undefined
leave-unchanged sentinel. -/
theorem c8_counterexample :
    (legacySaveKeys ⟨"sk-new-key", ""⟩).1.groq = "sk-new-key"
    ∧ ¬ (legacySaveKeys ⟨"sk-new-key", ""⟩).1.groq = ""
    ∧ (legacySaveKeys ⟨"sk-new-key", ""⟩).2.geminiApiKey = JsOpt.null := by
  decide

/-- One user interaction round with the src/unnamed/part_002 KeysPanel:
the user types the two buffer contents (setGroq and setGemini state
updates) and presses Save. -/
def saveStep (st : KeysState) (input : String × String) : KeysState :=
  (saveKeys { st with groq := input.1, gemini := input.2 }).1

/-- Claim C9: the Key Vault presence booleans are monotone under save:
for every sequence of save calls, once a presence boolean is true it
never becomes false again (a save with an empty buffer leaves it
true). -/
theorem c9_presence_monotone (st : KeysState) (inputs : List (String × String)) :
    (st.hasGroq = true → (inputs.foldl saveStep st).hasGroq = true)
    ∧ (st.hasGemini = true → (inputs.foldl saveStep st).hasGemini = true) := by
  induction inputs generalizing st with
  | nil => exact ⟨fun h => h, fun h => h⟩
  | cons i is ih =>
      refine ⟨fun h => ?_, fun h => ?_⟩
      · exact (ih (saveStep st i)).1 (by simp [saveStep, saveKeys, h])
      · exact (ih (saveStep st i)).2 (by simp [saveStep, saveKeys, h])

/-- Witness for C9: a set groq presence boolean survives a save with an
empty groq buffer followed by another save. -/
theorem c9_witness :
    (⟨true, false, "", ""⟩ : KeysState).hasGroq = true
    ∧ (([("", "x"), ("", "")] : List (String × String)).foldl saveStep
        ⟨true, false, "", ""⟩).hasGroq = true :=
  ⟨rfl, (c9_presence_monotone ⟨true, false, "", ""⟩ [("", "x"), ("", "")]).1 rfl⟩

/-- Outcome of the service worker fetch listener for one request:
passthrough means the listener returned without calling respondWith, so
the request proceeds to the network by default; responded carries the
response body provided to respondWith; offlineError is the thrown
offline error when neither network nor cache yields a response. -/
inductive FetchOutcome where
  | passthrough
  | responded (body : String)
  | offlineError
  deriving DecidableEq

/-- The service worker fetch listener, src/unnamed/part_001 lines 7 to
18: non-GET requests are returned early without respondWith; for GET
requests the network is tried first (network parameter: none means the
fetch threw); only when the network fetch throws is the cache consulted
(cached parameter is the cache.match result); if the cache also misses,
an offline error is thrown. -/
def handleFetch (method : String) (network : Option String)
    (cached : Option String) : FetchOutcome :=
  if method ≠ "GET" then FetchOutcome.passthrough
  else
    match network with
    | some r => FetchOutcome.responded r
    | none =>
      match cached with
      | some r => FetchOutcome.responded r
      | none => FetchOutcome.offlineError

/-- Claim C10: the fetch handler intercepts only GET requests; for a
non-GET method it returns without providing a response regardless of
network and cache; a GET answered by the network responds with the
network result whatever the cache holds; a GET whose network fetch
throws responds from the cache; a GET with neither fails with the
offline error. -/
theorem c10_fetch_get_only (method r : String) (network cached c1 c2 : Option String) :
    (method ≠ "GET" → handleFetch method network cached = FetchOutcome.passthrough)
    ∧ handleFetch "GET" (some r) c1 = handleFetch "GET" (some r) c2
    ∧ handleFetch "GET" (some r) cached = FetchOutcome.responded r
    ∧ handleFetch "GET" none (some r) = FetchOutcome.responded r
    ∧ handleFetch "GET" none none = FetchOutcome.offlineError := by
  refine ⟨fun h => ?_, rfl, rfl, rfl, rfl⟩
  simp [handleFetch, h]

/-- Witness for C10 at a concrete non-GET request. -/
theorem c10_witness :
    ("POST" : String) ≠ "GET"
    ∧ handleFetch "POST" (some "net") (some "cache") = FetchOutcome.passthrough :=
  ⟨by decide, (c10_fetch_get_only "POST" "r" (some "net") (some "cache") none none).1
    (by decide)⟩
